import Mathlib

/-!
Verification development for the MasterSelects hardware-accelerated video
decode pipeline.  The definitions below are a shallow embedding of the
Rust sources:

* `src/native-ui/src/engine.rs` — engine orchestrator, decode worker entry,
  file probing, CPU NV12 fallback conversion;
* `src/crates/decoder/src/nvdec/session.rs` — NVDEC decoder session,
  parser callbacks, seek reset, frame mapping;
* `src/crates/decoder/src/nvdec/ffi.rs` — packet flags and status codes.

Floating-point seconds (`f64` in the source) are modelled as rationals;
wall-clock instants as naturals; raw handles and device pointers as
naturals with `Option` standing for nullable handles.  External calls
(CUDA driver, CUVID parser, demuxer, OS) are modelled as explicit
parameters carrying their outcome.
-/

namespace MasterSelects

/-! Common data model (crate ms-common, consumed by engine.rs). -/

/-- Video codec tags, from ms-common `VideoCodec` (see
`CudaVideoCodec::from_common` in ffi.rs, which matches on exactly these
four constructors). -/
inductive VideoCodec
  | h264
  | h265
  | vp9
  | av1
deriving DecidableEq, Repr

/-- Pixel resolution (width, height). -/
structure Resolution where
  width : Nat
  height : Nat
deriving DecidableEq, Repr

/-- Modelled from the spec: ms-common (not under src/) provides the
`Resolution::HD` constant used as the probe-failure default; engine.rs
uses 1920x1080 as its default preview resolution. -/
def Resolution.HD : Resolution := { width := 1920, height := 1080 }

/-- Frame rate as a rational number (ms-common `Rational`). -/
structure Rational where
  num : Nat
  den : Nat
deriving DecidableEq, Repr

/-- Modelled from the spec: ms-common (not under src/) provides the
`Rational::FPS_30` constant, 30 frames per second. -/
def Rational.FPS_30 : Rational := { num := 30, den := 1 }

/-- Container format tags detected from file bytes/extension
(ms-common `ContainerFormat`). -/
inductive ContainerFormat
  | mp4
  | mkv
  | webM
deriving DecidableEq, Repr

/-- Metadata about the currently loaded media file (engine.rs `FileInfo`). -/
structure FileInfo where
  path : String
  file_name : String
  resolution : Resolution
  fps : Rational
  duration_secs : ℚ
  codec : VideoCodec
deriving DecidableEq, Repr

/-! Engine state machine (engine.rs). -/

/-- Current state of the engine playback pipeline (engine.rs `EngineState`). -/
inductive EngineState
  | idle
  | loading
  | playing
  | paused
  | error (msg : String)
deriving DecidableEq, Repr

/-- Short UI label for an engine state (engine.rs `EngineState::label`). -/
def EngineState.label : EngineState → String
  | .idle => "Idle"
  | .loading => "Loading..."
  | .playing => "Playing"
  | .paused => "Paused"
  | .error _ => "Error"

/-- Commands sent from the main thread to the decode thread
(engine.rs `DecodeCommand`). -/
inductive DecodeCommand
  | play
  | pause
  | seek (t : ℚ)
  | stop
deriving DecidableEq, Repr

/-- GPU info message sent once from the decode thread to the main thread
(engine.rs `GpuInfoMsg`). -/
structure GpuInfoMsg where
  gpu_name : String
  nvdec_active : Bool
deriving DecidableEq, Repr

/-- Engine orchestrator state (engine.rs `EngineOrchestrator`).  The
crossbeam channel endpoints are modelled by their observable content:
`cmd_tx` is `some cmds` when the sender is held, with `cmds` the sequence
of commands sent so far; `frame_rx_open` and `gpu_info_rx_open` record
whether the receiving endpoints are held; `decode_thread` records whether
a worker join handle is held. -/
structure EngineOrchestrator where
  state : EngineState
  preview_width : Nat
  preview_height : Nat
  file_info : Option FileInfo
  current_time_secs : ℚ
  playback_start_instant : Option Nat
  playback_start_time_secs : ℚ
  frame_rx_open : Bool
  cmd_tx : Option (List DecodeCommand)
  decode_thread : Bool
  last_frame : Option (List Nat)
  last_frame_width : Nat
  last_frame_height : Nat
  gpu_info : Option String
  gpu_decode_active : Bool
  gpu_info_rx_open : Bool
deriving DecidableEq, Repr

/-- Fresh idle engine (engine.rs `EngineOrchestrator::new`). -/
def EngineOrchestrator.new : EngineOrchestrator where
  state := .idle
  preview_width := 1920
  preview_height := 1080
  file_info := none
  current_time_secs := 0
  playback_start_instant := none
  playback_start_time_secs := 0
  frame_rx_open := false
  cmd_tx := none
  decode_thread := false
  last_frame := none
  last_frame_width := 0
  last_frame_height := 0
  gpu_info := none
  gpu_decode_active := false
  gpu_info_rx_open := false

/-- Duration of the loaded file in seconds, 0 when no file is loaded
(engine.rs `EngineOrchestrator::duration_secs`). -/
def EngineOrchestrator.duration_secs (e : EngineOrchestrator) : ℚ :=
  match e.file_info with
  | some info => info.duration_secs
  | none => 0

/-- Send a command on the command channel when the sender is held
(the `if let Some(tx) = &self.cmd_tx` pattern in engine.rs). -/
def EngineOrchestrator.sendCmd (e : EngineOrchestrator) (c : DecodeCommand) :
    EngineOrchestrator :=
  match e.cmd_tx with
  | some cmds => { e with cmd_tx := some (cmds ++ [c]) }
  | none => e

/-- Rust `f64::clamp(lo, hi)`: for `lo ≤ hi` the result is
`min (max x lo) hi`. -/
def clampRat (x lo hi : ℚ) : ℚ := min (max x lo) hi

/-- Start or resume playback (engine.rs `EngineOrchestrator::play`).
`now` models `Instant::now()`. -/
def EngineOrchestrator.play (e : EngineOrchestrator) (now : Nat) :
    EngineOrchestrator :=
  if e.state = .paused ∨ e.state = .idle then
    EngineOrchestrator.sendCmd
      { e with
        state := .playing
        playback_start_instant := some now
        playback_start_time_secs := e.current_time_secs }
      .play
  else e

/-- Pause playback (engine.rs `EngineOrchestrator::pause`). -/
def EngineOrchestrator.pause (e : EngineOrchestrator) : EngineOrchestrator :=
  if e.state = .playing then
    EngineOrchestrator.sendCmd
      { e with
        state := .paused
        playback_start_instant := none }
      .pause
  else e

/-- Seek to a specific time in seconds (engine.rs
`EngineOrchestrator::seek`).  Clamps the target to `[0, duration]`,
re-anchors the wall clock when playing, and sends the clamped value on
the command channel. -/
def EngineOrchestrator.seek (e : EngineOrchestrator) (time_secs : ℚ) (now : Nat) :
    EngineOrchestrator :=
  let duration := e.duration_secs
  let t := clampRat time_secs 0 duration
  let e1 := { e with current_time_secs := t }
  let e2 :=
    if e1.state = .playing then
      { e1 with
        playback_start_instant := some now
        playback_start_time_secs := t }
    else e1
  EngineOrchestrator.sendCmd e2 (.seek t)

/-- Shut down the decode pipeline (engine.rs
`EngineOrchestrator::stop_pipeline`): send Stop, take the command
sender, drop the frame receiver, join the worker. -/
def EngineOrchestrator.stop_pipeline (e : EngineOrchestrator) : EngineOrchestrator :=
  { e with
    cmd_tx := none
    frame_rx_open := false
    decode_thread := false }

/-- Stop playback and close the current file (engine.rs
`EngineOrchestrator::stop`). -/
def EngineOrchestrator.stop (e : EngineOrchestrator) : EngineOrchestrator :=
  let e1 := e.stop_pipeline
  { e1 with
    state := .idle
    file_info := none
    current_time_secs := 0
    playback_start_instant := none
    last_frame := none }

/-- Record the one-shot GPU info message on the main thread, dropping the
receiver afterwards (the gpu-info poll at the top of engine.rs
`EngineOrchestrator::update`). -/
def EngineOrchestrator.apply_gpu_info (e : EngineOrchestrator) (msg : GpuInfoMsg) :
    EngineOrchestrator :=
  { e with
    gpu_info := some msg.gpu_name
    gpu_decode_active := msg.nvdec_active
    gpu_info_rx_open := false }

/-! File probing (engine.rs `probe_file_info`).  The demuxer crate is
external; the outcomes of format detection and of opening/probing the
container are passed in as parameters. -/

/-- One video stream as reported by the external demuxer probe. -/
structure VideoStream where
  codec : VideoCodec
  resolution : Resolution
  fps : Rational
  duration : ℚ
deriving DecidableEq, Repr

/-- Container probe result (external demuxer `probe()`). -/
structure ContainerInfo where
  video_streams : List VideoStream
deriving DecidableEq, Repr

/-- Probe a media file for metadata (engine.rs `probe_file_info`).
`detect` is the outcome of `detect_format`; `openDemux fmt` is the
outcome of opening the matching demuxer and probing it. -/
def probe_file_info (detect : Except String ContainerFormat)
    (openDemux : ContainerFormat → Except String ContainerInfo)
    (path file_name : String) : Except String FileInfo :=
  match detect with
  | .error e => .error ("Unsupported format: " ++ e)
  | .ok fmt =>
    let opened :=
      match fmt, openDemux fmt with
      | .mp4, .error e => Except.error ("Failed to open MP4: " ++ e)
      | .mkv, .error e => Except.error ("Failed to open MKV: " ++ e)
      | .webM, .error e => Except.error ("Failed to open MKV: " ++ e)
      | _, .ok c => Except.ok c
    match opened with
    | .error e => .error e
    | .ok container =>
      match container.video_streams with
      | [] => .error "No video stream found"
      | video :: _ =>
        .ok
          { path := path
            file_name := file_name
            resolution := video.resolution
            fps := video.fps
            duration_secs := video.duration
            codec := video.codec }

/-- Open a media file and start the decode pipeline (engine.rs
`EngineOrchestrator::open_file`).  `probe` is the outcome of
`probe_file_info` on the path; `file_name` is the OS-derived display
name.  Spawning the worker thread is modelled as succeeding, so the call
returns `Except.ok ()` together with the updated engine. -/
def EngineOrchestrator.open_file (e : EngineOrchestrator) (path file_name : String)
    (probe : Except String FileInfo) : EngineOrchestrator × Except String Unit :=
  let e1 := e.stop_pipeline
  let e2 :=
    { e1 with
      state := .loading
      current_time_secs := 0
      playback_start_instant := none
      last_frame := none }
  let info :=
    match probe with
    | .ok fi => fi
    | .error _ =>
      { path := path
        file_name := file_name
        resolution := Resolution.HD
        fps := Rational.FPS_30
        duration_secs := 10
        codec := VideoCodec.h264 }
  let e3 := { e2 with file_info := some info }
  let e4 :=
    { e3 with
      frame_rx_open := true
      cmd_tx := some []
      gpu_info_rx_open := true
      decode_thread := true }
  ({ e4 with state := .paused }, .ok ())

/-! Decode worker negotiation (engine.rs `decode_thread_main`).  The
worker first tries to initialize CUDA + NVDEC (`try_init_nvdec`), sends
exactly one `GpuInfoMsg`, then tries to open the demuxer and enters one
of three loops.  None of the loops holds the gpu-info sender, so no
further gpu-info message can be sent. -/

/-- Which decode loop the worker entered. -/
inductive LoopChoice
  | nvdecLoop
  | realLoop
  | syntheticLoop
deriving DecidableEq, Repr

/-- Negotiation phase of engine.rs `decode_thread_main`: given the
outcome of `try_init_nvdec` (carrying the GPU name on success) and of
`try_open_demuxer`, returns the list of GPU-info messages sent on the
one-shot channel and the loop entered. -/
def decode_thread_negotiate (nvdecInit : Except String String)
    (demuxOpen : Except String Unit) : List GpuInfoMsg × LoopChoice :=
  match nvdecInit with
  | .ok gpu_name =>
    ([{ gpu_name := gpu_name, nvdec_active := true }],
      match demuxOpen with
      | .ok _ => .nvdecLoop
      | .error _ => .syntheticLoop)
  | .error _ =>
    ([{ gpu_name := "None (software)", nvdec_active := false }],
      match demuxOpen with
      | .ok _ => .realLoop
      | .error _ => .syntheticLoop)

/-! NVDEC decoder session (src/crates/decoder/src/nvdec/session.rs and
ffi.rs).  Raw CUVID handles are modelled as naturals, with `Option`
standing for nullable handles; CUDA status codes are naturals with 0 as
`CUDA_SUCCESS`.  The vendor parser/driver functions are modelled by
explicit outcome parameters. -/

namespace Nvdec

/-- CUDA driver success status (ffi.rs `CUDA_SUCCESS`). -/
def CUDA_SUCCESS : Nat := 0

/-- Packet flag: end of stream (ffi.rs `CUVID_PKT_ENDOFSTREAM`). -/
def CUVID_PKT_ENDOFSTREAM : Nat := 0x01

/-- Packet flag: timestamp is valid (ffi.rs `CUVID_PKT_TIMESTAMP`). -/
def CUVID_PKT_TIMESTAMP : Nat := 0x02

/-- Packet flag: bitstream discontinuity (ffi.rs `CUVID_PKT_DISCONTINUITY`). -/
def CUVID_PKT_DISCONTINUITY : Nat := 0x04

/-- NVDEC-side codec identifier (ffi.rs `CudaVideoCodec`, restricted to
the constructors reachable from `from_common`). -/
inductive CudaVideoCodec
  | h264
  | hevc
  | vp9
  | av1
deriving DecidableEq, Repr

/-- Map the common codec tag onto the NVDEC codec identifier
(ffi.rs `CudaVideoCodec::from_common`). -/
def CudaVideoCodec.from_common : MasterSelects.VideoCodec → Option CudaVideoCodec
  | .h264 => some .h264
  | .h265 => some .hevc
  | .vp9 => some .vp9
  | .av1 => some .av1

/-- Output surface format (ffi.rs `CudaVideoSurfaceFormat`, the two
values chosen by the sequence callback). -/
inductive CudaVideoSurfaceFormat
  | nv12
  | p016
deriving DecidableEq, Repr

/-- Video format reported by the parser sequence callback (ffi.rs
`CuVideoFormat`, the fields read by session.rs). -/
structure CuVideoFormat where
  codec : CudaVideoCodec
  bit_depth_luma_minus8 : Nat
  min_num_decode_surfaces : Nat
  coded_width : Nat
  coded_height : Nat
  display_area_left : Int
  display_area_top : Int
  display_area_right : Int
  display_area_bottom : Int
deriving DecidableEq, Repr

/-- Information about a decoded frame ready for retrieval
(session.rs `DecodedFrameInfo`). -/
structure DecodedFrameInfo where
  picture_index : Int
  progressive_frame : Bool
  top_field_first : Bool
  timestamp : Int
deriving DecidableEq, Repr

/-- Decode errors surfaced to callers (ms-common `DecodeError`, the
variants constructed in session.rs). -/
inductive DecodeError
  | unsupportedCodec (codec : MasterSelects.VideoCodec)
  | hwDecoderInit (codec : MasterSelects.VideoCodec) (reason : String)
  | decodeFailed (frame : Nat) (reason : String)
  | invalidSession
deriving DecidableEq, Repr

/-- State shared between the parser callbacks and the session
(session.rs `CallbackState`).  `decoder = none` models a null
`CUvideodecoder` handle. -/
structure CallbackState where
  decoder : Option Nat
  display_queue : List DecodedFrameInfo
  format : Option CuVideoFormat
  cuda_codec : CudaVideoCodec
  width : Nat
  height : Nat
  num_decode_surfaces : Nat
  last_error : Option String
  frames_decoded : Nat
  frames_displayed : Nat
deriving DecidableEq, Repr

/-- Decoder creation parameters assembled by the sequence callback
(ffi.rs `CuvidDecodeCreateInfo`, the fields session.rs fills in). -/
structure CuvidDecodeCreateInfo where
  coded_width : Nat
  coded_height : Nat
  num_decode_surfaces : Nat
  output_format : CudaVideoSurfaceFormat
  target_width : Nat
  target_height : Nat
  num_output_surfaces : Nat
deriving DecidableEq, Repr

/-- Result of one sequence-callback invocation: the updated callback
state, the create-info passed to `cuvidCreateDecoder`, and the integer
returned to the parser. -/
structure SeqCbResult where
  state : CallbackState
  create_info : CuvidDecodeCreateInfo
  ret : Int
deriving DecidableEq, Repr

/-- First half of the sequence callback (session.rs `sequence_callback`,
up to the `cuvidCreateDecoder` call): computes the display dimensions,
destroys any existing decoder, chooses the DPB size and surface format,
and assembles the decoder creation parameters.  Returns the updated
callback state and the create-info. -/
def sequence_callback_prepare (st0 : CallbackState) (fmt : CuVideoFormat) :
    CallbackState × CuvidDecodeCreateInfo :=
  let disp_w := (max (fmt.display_area_right - fmt.display_area_left) 0).toNat
  let disp_h := (max (fmt.display_area_bottom - fmt.display_area_top) 0).toNat
  let st1 :=
    { st0 with
      width := if disp_w > 0 then disp_w else fmt.coded_width
      height := if disp_h > 0 then disp_h else fmt.coded_height
      format := some fmt }
  let st2 := { st1 with decoder := none }
  let num_decode_surfaces :=
    max (fmt.min_num_decode_surfaces + 4) st2.num_decode_surfaces
  let output_format : CudaVideoSurfaceFormat :=
    if fmt.bit_depth_luma_minus8 > 0 then .p016 else .nv12
  let create_info : CuvidDecodeCreateInfo :=
    { coded_width := fmt.coded_width
      coded_height := fmt.coded_height
      num_decode_surfaces := num_decode_surfaces
      output_format := output_format
      target_width := st2.width
      target_height := st2.height
      num_output_surfaces := 2 }
  (st2, create_info)

/-- Sequence callback (session.rs `sequence_callback`): prepares the
state and create-info, then creates the decoder.  `createDecoder`
models the outcome of `cuvidCreateDecoder` (error status or decoder
handle); on failure an error is recorded and 0 returned, on success the
chosen DPB size is returned to the parser. -/
def sequence_callback (st0 : CallbackState) (fmt : CuVideoFormat)
    (createDecoder : CuvidDecodeCreateInfo → Except Nat Nat) : SeqCbResult :=
  let pre := sequence_callback_prepare st0 fmt
  let st2 := pre.1
  let create_info := pre.2
  match createDecoder create_info with
  | .error code =>
    { state :=
        { st2 with
          last_error := some ("cuvidCreateDecoder failed: error " ++ toString code) }
      create_info := create_info
      ret := 0 }
  | .ok handle =>
    { state := { st2 with decoder := some handle }
      create_info := create_info
      ret := (create_info.num_decode_surfaces : Int) }

/-- Decode-picture callback (session.rs `decode_picture_callback`):
forwards the picture to `cuvidDecodePicture` (outcome `decodePicture`);
records an error and returns 0 when no decoder exists or the call fails. -/
def decode_picture_callback (st : CallbackState) (decodePicture : Except Nat Unit) :
    CallbackState × Int :=
  match st.decoder with
  | none =>
    ({ st with last_error := some "Decode callback invoked before decoder was created" }, 0)
  | some _ =>
    match decodePicture with
    | .error code =>
      ({ st with last_error := some ("cuvidDecodePicture failed: error " ++ toString code) }, 0)
    | .ok _ => ({ st with frames_decoded := st.frames_decoded + 1 }, 1)

/-- Display-picture callback (session.rs `display_picture_callback`):
pushes a display-ready descriptor; a null `disp_info` (`none`) signals
flush and is a successful no-op. -/
def display_picture_callback (st : CallbackState) (disp_info : Option DecodedFrameInfo) :
    CallbackState × Int :=
  match disp_info with
  | none => (st, 1)
  | some info =>
    ({ st with
        display_queue := st.display_queue ++ [info]
        frames_displayed := st.frames_displayed + 1 }, 1)

/-- An NVDEC decoder session (session.rs `NvDecSession`): parser handle,
callback state, codec. -/
structure NvDecSession where
  parser : Nat
  callback_state : CallbackState
  codec : MasterSelects.VideoCodec
deriving DecidableEq, Repr

/-- Create a new NVDEC decoder session (session.rs `NvDecSession::new`).
The requested surface count is clamped to `[8, 32]`; the decoder itself
is created lazily by the sequence callback.  `parserCreate` models the
outcome of `cuvidCreateVideoParser` (error status or parser handle). -/
def NvDecSession.new (codec : MasterSelects.VideoCodec)
    (num_decode_surfaces : Nat) (max_display_delay : Nat)
    (parserCreate : Except Nat Nat) : Except DecodeError NvDecSession :=
  match CudaVideoCodec.from_common codec with
  | none => .error (.unsupportedCodec codec)
  | some cuda_codec =>
    let clamped_surfaces := min (max num_decode_surfaces 8) 32
    let st : CallbackState :=
      { decoder := none
        display_queue := []
        format := none
        cuda_codec := cuda_codec
        width := 0
        height := 0
        num_decode_surfaces := clamped_surfaces
        last_error := none
        frames_decoded := 0
        frames_displayed := 0 }
    match parserCreate with
    | .error code =>
      .error (.hwDecoderInit codec
        ("cuvidCreateVideoParser failed with error code " ++ toString code))
    | .ok parser =>
      .ok { parser := parser, callback_state := st, codec := codec }

/-- Compressed data packet handed to `cuvidParseVideoData`
(ffi.rs `CuvidSourceDataPacket`; the payload pointer is elided). -/
structure CuvidSourceDataPacket where
  flags : Nat
  payload_size : Nat
  timestamp : Int
deriving DecidableEq, Repr

/-- Result of submitting one packet through the parser: the returned
value, the callback state afterwards, and the packet that was submitted. -/
structure ParseOutcome where
  result : Except DecodeError Unit
  state : CallbackState
  packet : CuvidSourceDataPacket
deriving Repr

/-- Feed one compressed packet to the parser (session.rs
`NvDecSession::parse_data`).  The stale callback error is cleared first;
`callbacks` models the combined effect of the callbacks the parser
invokes during `cuvidParseVideoData`, and `parserStatus` the status that
call returns.  A non-success status or a recorded callback error becomes
`DecodeError.decodeFailed`. -/
def NvDecSession.parse_data (st0 : CallbackState) (data_len : Nat) (timestamp : Int)
    (callbacks : CallbackState → CallbackState) (parserStatus : Nat) : ParseOutcome :=
  let cleared := { st0 with last_error := none }
  let packet : CuvidSourceDataPacket :=
    { flags := CUVID_PKT_TIMESTAMP
      payload_size := data_len
      timestamp := timestamp }
  let st1 := callbacks cleared
  if parserStatus ≠ CUDA_SUCCESS then
    { result := .error (.decodeFailed 0
        ("cuvidParseVideoData failed with error code " ++ toString parserStatus))
      state := st1
      packet := packet }
  else
    match st1.last_error with
    | some err =>
      { result := .error (.decodeFailed st1.frames_decoded err)
        state := st1
        packet := packet }
    | none => { result := .ok (), state := st1, packet := packet }

/-- Reset the session for seeking (session.rs `NvDecSession::reset`):
clear the display queue and stale error, then submit a zero-length
packet carrying only the discontinuity flag.  The packet holds no
picture data, so no callbacks fire; the decoder handle is untouched. -/
def NvDecSession.reset (st0 : CallbackState) (parserStatus : Nat) : ParseOutcome :=
  let st1 := { st0 with display_queue := [], last_error := none }
  let packet : CuvidSourceDataPacket :=
    { flags := CUVID_PKT_DISCONTINUITY
      payload_size := 0
      timestamp := 0 }
  if parserStatus ≠ CUDA_SUCCESS then
    { result := .error (.decodeFailed 0
        ("cuvidParseVideoData (discontinuity) failed with error code "
          ++ toString parserStatus))
      state := st1
      packet := packet }
  else { result := .ok (), state := st1, packet := packet }

/-- A mapped decoded frame (session.rs `MappedFrame`, the observable
fields). -/
structure MappedFrame where
  device_ptr : Nat
  pitch : Nat
  width : Nat
  height : Nat
  timestamp : Int
  decoder_handle : Nat
deriving DecidableEq, Repr

/-- Map the next decoded frame (session.rs `NvDecSession::map_next_frame`).
The oldest display-queue descriptor is popped first; if the decoder has
not been created yet the call fails with `InvalidSession` (the popped
descriptor is discarded).  `mapFrame` models the outcome of
`cuvidMapVideoFrame64` on a picture index (error status, or device
pointer and pitch). -/
def NvDecSession.map_next_frame (st0 : CallbackState)
    (mapFrame : Int → Except Nat (Nat × Nat)) :
    Except DecodeError (Option MappedFrame) × CallbackState :=
  match st0.display_queue with
  | [] => (.ok none, st0)
  | frame_info :: rest =>
    let st1 := { st0 with display_queue := rest }
    match st1.decoder with
    | none => (.error .invalidSession, st1)
    | some decoder_handle =>
      match mapFrame frame_info.picture_index with
      | .error code =>
        (.error (.decodeFailed ((frame_info.timestamp % (2 ^ 64)).toNat)
          ("cuvidMapVideoFrame64 failed with error code " ++ toString code)), st1)
      | .ok (dev_ptr, pitch) =>
        (.ok (some
          { device_ptr := dev_ptr
            pitch := pitch
            width := st1.width
            height := st1.height
            timestamp := frame_info.timestamp
            decoder_handle := decoder_handle }), st1)

/-- Check if there are decoded frames ready for retrieval
(session.rs `NvDecSession::has_decoded_frames`). -/
def NvDecSession.has_decoded_frames (st : CallbackState) : Bool :=
  !st.display_queue.isEmpty

end Nvdec

/-! CPU fallback NV12 copy (engine.rs `cpu_nv12_copy_and_convert`).  The
device-to-host copy is modelled by reading `deviceMem` at each byte
offset; the subsequent BT.709 conversion lives in the external
ms-decoder software module and is out of scope here. -/

/-- Host-side buffers produced by the CPU fallback copy. -/
structure CpuNv12Host where
  nv12_host : List Nat
  y_plane : List Nat
  uv_plane : List Nat
deriving Repr

/-- Copy the combined NV12 frame (Y plane plus interleaved UV plane) from
device memory to a host buffer and split it into planes (engine.rs
`cpu_nv12_copy_and_convert`, steps before the colour conversion). -/
def cpu_nv12_copy_and_convert (deviceMem : Nat → Nat)
    (width height pitch : Nat) : CpuNv12Host :=
  let y_size := pitch * height
  let uv_size := pitch * (height / 2)
  let total_nv12_size := y_size + uv_size
  let nv12_host := (List.range total_nv12_size).map deviceMem
  { nv12_host := nv12_host
    y_plane := nv12_host.take y_size
    uv_plane := nv12_host.drop y_size }

open Nvdec

/-! Concrete sample values used by counterexamples and witnesses. -/

/-- A successful probe of a VP9-tagged file, used to exercise the open
path whose hardware decoder setup then fails. -/
def probeVp9Demo : Except String FileInfo :=
  .ok
    { path := "clip.webm"
      file_name := "clip.webm"
      resolution := { width := 1920, height := 1080 }
      fps := { num := 30, den := 1 }
      duration_secs := 10
      codec := .vp9 }

/-- The session produced by `NvDecSession.new .h264 20 4 (.ok 1)`. -/
def sessionDemo : NvDecSession where
  parser := 1
  callback_state :=
    { decoder := none
      display_queue := []
      format := none
      cuda_codec := .h264
      width := 0
      height := 0
      num_decode_surfaces := 20
      last_error := none
      frames_decoded := 0
      frames_displayed := 0 }
  codec := .h264

/-- A sample sequence-header format (1920x1088 coded, 1920x1080 display,
8-bit, parser minimum 9 surfaces). -/
def fmtDemo : CuVideoFormat where
  codec := .h264
  bit_depth_luma_minus8 := 0
  min_num_decode_surfaces := 9
  coded_width := 1920
  coded_height := 1088
  display_area_left := 0
  display_area_top := 0
  display_area_right := 1920
  display_area_bottom := 1080

/-- A decoder-creation outcome that always succeeds with handle 5. -/
def cdDemo : CuvidDecodeCreateInfo → Except Nat Nat := fun _ => .ok 5

/-- A playing engine over a 10-second file, for exercising seek. -/
def enginePlayingDemo : EngineOrchestrator :=
  { EngineOrchestrator.new with
    state := .playing
    file_info := some
      { path := "clip.mp4"
        file_name := "clip.mp4"
        resolution := { width := 1920, height := 1080 }
        fps := { num := 30, den := 1 }
        duration_secs := 10
        codec := .h264 }
    cmd_tx := some []
    playback_start_instant := some 0 }

/-- A paused engine at playback position 3 seconds. -/
def enginePausedDemo : EngineOrchestrator :=
  { EngineOrchestrator.new with
    state := .paused
    current_time_secs := 3
    cmd_tx := some [] }

/-- A callback state with a live decoder and an empty display queue. -/
def stParseDemo : CallbackState where
  decoder := some 5
  display_queue := []
  format := none
  cuda_codec := .h264
  width := 1920
  height := 1080
  num_decode_surfaces := 20
  last_error := some "stale error from a previous call"
  frames_decoded := 3
  frames_displayed := 3

/-- A callback state whose display queue is non-empty although the
decoder has not been created yet. -/
def stQueueDemo : CallbackState where
  decoder := none
  display_queue := [{ picture_index := 0, progressive_frame := true,
                      top_field_first := false, timestamp := 0 }]
  format := none
  cuda_codec := .h264
  width := 0
  height := 0
  num_decode_surfaces := 20
  last_error := none
  frames_decoded := 1
  frames_displayed := 1

/-! Theorems settling the claims. -/

/-- C2: every execution of the decode worker entry sends exactly one
GpuInfoMsg on the one-shot channel, on every path: on NVDEC success the
message carries the GPU name with hw_accel true, and on any
initialization failure it carries "None (software)" with hw_accel false,
regardless of whether the demuxer opens. -/
theorem c2_gpu_info_sent_exactly_once
    (nvdecInit : Except String String) (demuxOpen : Except String Unit) :
    (decode_thread_negotiate nvdecInit demuxOpen).1.length = 1
    ∧ (decode_thread_negotiate nvdecInit demuxOpen).1 =
        [match nvdecInit with
         | .ok name => { gpu_name := name, nvdec_active := true }
         | .error _ => { gpu_name := "None (software)", nvdec_active := false }] := by
  cases nvdecInit <;> cases demuxOpen <;> simp [decode_thread_negotiate]

/-- C6: the seek-reset operation leaves the display queue empty, submits
a zero-length packet whose flags are exactly the discontinuity flag, and
leaves the decoder handle unchanged (the decoder is neither destroyed
nor recreated). -/
theorem c6_reset_clears_queue_keeps_decoder (st : CallbackState) (parserStatus : Nat) :
    (NvDecSession.reset st parserStatus).state.display_queue = []
    ∧ (NvDecSession.reset st parserStatus).packet.flags = CUVID_PKT_DISCONTINUITY
    ∧ (NvDecSession.reset st parserStatus).packet.payload_size = 0
    ∧ (NvDecSession.reset st parserStatus).state.decoder = st.decoder := by
  by_cases hp : parserStatus = CUDA_SUCCESS <;> simp [NvDecSession.reset, hp]

/-- C8: from a Paused engine, play() immediately followed by pause()
returns the state to Paused and leaves current_time unchanged. -/
theorem c8_play_pause_noop (e : EngineOrchestrator) (now : Nat)
    (h : e.state = .paused) :
    ((e.play now).pause).current_time_secs = e.current_time_secs
    ∧ ((e.play now).pause).state = .paused := by
  cases hc : e.cmd_tx <;>
    simp [EngineOrchestrator.play, EngineOrchestrator.pause,
      EngineOrchestrator.sendCmd, h, hc]

/-- C8 witness: the law holds for a concrete paused engine at 3 seconds. -/
theorem c8_witness :
    ((enginePausedDemo.play 7).pause).current_time_secs
        = enginePausedDemo.current_time_secs
    ∧ ((enginePausedDemo.play 7).pause).state = .paused :=
  c8_play_pause_noop enginePausedDemo 7 rfl

/-- C5: parse_data clears the stale callback error before invoking the
parser (its outcome does not depend on the incoming last_error), returns
Ok exactly when the parser call succeeds and no callback recorded an
error during that call, and every failure is a DecodeFailed error. -/
theorem c5_parse_data_error_iff (st : CallbackState) (data_len : Nat) (ts : Int)
    (callbacks : CallbackState → CallbackState) (parserStatus : Nat) :
    (NvDecSession.parse_data st data_len ts callbacks parserStatus
      = NvDecSession.parse_data { st with last_error := none } data_len ts
          callbacks parserStatus)
    ∧ ((NvDecSession.parse_data st data_len ts callbacks parserStatus).result = .ok ()
        ↔ parserStatus = CUDA_SUCCESS
          ∧ (callbacks { st with last_error := none }).last_error = none)
    ∧ ((NvDecSession.parse_data st data_len ts callbacks parserStatus).result = .ok ()
        ∨ ∃ fr reason,
            (NvDecSession.parse_data st data_len ts callbacks parserStatus).result
              = .error (.decodeFailed fr reason)) := by
  by_cases hp : parserStatus = CUDA_SUCCESS <;>
    cases hcb : (callbacks { st with last_error := none }).last_error <;>
    simp [NvDecSession.parse_data, hp, hcb]

/-- C5 witness: at a concrete state with a stale error, identity
callbacks and a successful parser call, parse_data returns Ok. -/
theorem c5_witness :
    (NvDecSession.parse_data stParseDemo 5 0 id 0).result = .ok () :=
  (c5_parse_data_error_iff stParseDemo 5 0 id 0).2.1.mpr ⟨rfl, rfl⟩

/-- C10: when the display queue is non-empty but the decoder has not been
created, map_next_frame returns InvalidSession and still pops the front
descriptor, so the queue length decreases by one on the error path. -/
theorem c10_map_next_frame_not_atomic (st : CallbackState)
    (mapFrame : Int → Except Nat (Nat × Nat))
    (hq : st.display_queue ≠ []) (hd : st.decoder = none) :
    (NvDecSession.map_next_frame st mapFrame).1 = .error .invalidSession
    ∧ (NvDecSession.map_next_frame st mapFrame).2.display_queue = st.display_queue.tail
    ∧ (NvDecSession.map_next_frame st mapFrame).2.display_queue.length + 1
        = st.display_queue.length := by
  cases hq2 : st.display_queue with
  | nil => exact absurd hq2 hq
  | cons info rest => simp [NvDecSession.map_next_frame, hq2, hd]

/-- C10 witness: the non-atomic error occurs on a concrete one-element
queue with no decoder. -/
theorem c10_witness :
    (NvDecSession.map_next_frame stQueueDemo (fun _ => .ok (1, 2048))).1
        = .error .invalidSession
    ∧ (NvDecSession.map_next_frame stQueueDemo (fun _ => .ok (1, 2048))).2.display_queue
        = stQueueDemo.display_queue.tail
    ∧ (NvDecSession.map_next_frame stQueueDemo
        (fun _ => .ok (1, 2048))).2.display_queue.length + 1
        = stQueueDemo.display_queue.length :=
  c10_map_next_frame_not_atomic stQueueDemo (fun _ => .ok (1, 2048))
    (by simp [stQueueDemo]) rfl

/-- C4: for every seek target t (in or out of range) and any engine
state, after seek(t) the playback position lies in [0, duration]; the
Seek command appended to the command channel (when the sender is held)
carries the clamped value; and the wall-clock anchor is re-captured
exactly when the engine is Playing. -/
theorem c4_seek_clamps (e : EngineOrchestrator) (t : ℚ) (now : Nat)
    (hd : 0 ≤ e.duration_secs) :
    (0 ≤ (e.seek t now).current_time_secs
      ∧ (e.seek t now).current_time_secs ≤ e.duration_secs)
    ∧ ((e.seek t now).cmd_tx =
        e.cmd_tx.map (fun cmds =>
          cmds ++ [DecodeCommand.seek (clampRat t 0 e.duration_secs)]))
    ∧ (e.state = .playing →
        (e.seek t now).playback_start_instant = some now
        ∧ (e.seek t now).playback_start_time_secs = clampRat t 0 e.duration_secs)
    ∧ (e.state ≠ .playing →
        (e.seek t now).playback_start_instant = e.playback_start_instant
        ∧ (e.seek t now).playback_start_time_secs = e.playback_start_time_secs) := by
  have hcl0 : 0 ≤ clampRat t 0 e.duration_secs :=
    le_min (le_max_right t 0) hd
  have hcl1 : clampRat t 0 e.duration_secs ≤ e.duration_secs :=
    min_le_right _ _
  by_cases hs : e.state = .playing <;>
    cases hc : e.cmd_tx <;>
    simp_all [EngineOrchestrator.seek, EngineOrchestrator.sendCmd, clampRat]

/-- C4 witness: seeking a playing 10-second engine to t = 25 clamps the
position to 10, sends Seek(10) and re-anchors the wall clock. -/
theorem c4_witness :
    (0 ≤ (enginePlayingDemo.seek 25 9).current_time_secs
      ∧ (enginePlayingDemo.seek 25 9).current_time_secs ≤ enginePlayingDemo.duration_secs)
    ∧ ((enginePlayingDemo.seek 25 9).cmd_tx =
        enginePlayingDemo.cmd_tx.map (fun cmds =>
          cmds ++ [DecodeCommand.seek (clampRat 25 0 enginePlayingDemo.duration_secs)]))
    ∧ (enginePlayingDemo.state = .playing →
        (enginePlayingDemo.seek 25 9).playback_start_instant = some 9
        ∧ (enginePlayingDemo.seek 25 9).playback_start_time_secs
            = clampRat 25 0 enginePlayingDemo.duration_secs)
    ∧ (enginePlayingDemo.state ≠ .playing →
        (enginePlayingDemo.seek 25 9).playback_start_instant
            = enginePlayingDemo.playback_start_instant
        ∧ (enginePlayingDemo.seek 25 9).playback_start_time_secs
            = enginePlayingDemo.playback_start_time_secs) :=
  c4_seek_clamps enginePlayingDemo 25 9 (by norm_num [EngineOrchestrator.duration_secs, enginePlayingDemo])

/-- The create-info assembled for the decoder carries DPB size
max(parser minimum + 4, stored requested minimum). -/
theorem sequence_callback_prepare_num (st : CallbackState) (fmt : CuVideoFormat) :
    (sequence_callback_prepare st fmt).2.num_decode_surfaces
      = max (fmt.min_num_decode_surfaces + 4) st.num_decode_surfaces := rfl

/-- Preparing the sequence state does not change the stored requested
surface minimum. -/
theorem sequence_callback_prepare_keep (st : CallbackState) (fmt : CuVideoFormat) :
    (sequence_callback_prepare st fmt).1.num_decode_surfaces
      = st.num_decode_surfaces := rfl

/-- Preparing the sequence state nulls the decoder handle (the old
decoder is destroyed before recreation). -/
theorem sequence_callback_prepare_decoder (st : CallbackState) (fmt : CuVideoFormat) :
    (sequence_callback_prepare st fmt).1.decoder = none := rfl

/-- The sequence callback always passes DPB size
max(parser minimum + 4, stored requested minimum) to cuvidCreateDecoder,
and never changes the stored requested minimum. -/
theorem sequence_callback_dpb (st : CallbackState) (fmt : CuVideoFormat)
    (createDecoder : CuvidDecodeCreateInfo → Except Nat Nat) :
    (sequence_callback st fmt createDecoder).create_info.num_decode_surfaces
      = max (fmt.min_num_decode_surfaces + 4) st.num_decode_surfaces
    ∧ (sequence_callback st fmt createDecoder).state.num_decode_surfaces
      = st.num_decode_surfaces := by
  simp only [sequence_callback]
  cases hcd : createDecoder (sequence_callback_prepare st fmt).2 <;>
    simp [hcd, sequence_callback_prepare_num, sequence_callback_prepare_keep]

/-- When the sequence callback leaves a live decoder behind (decoder
creation succeeded), the value it returns to the parser is that same
DPB size. -/
theorem sequence_callback_ret (st : CallbackState) (fmt : CuVideoFormat)
    (createDecoder : CuvidDecodeCreateInfo → Except Nat Nat)
    (hok : (sequence_callback st fmt createDecoder).state.decoder.isSome = true) :
    (sequence_callback st fmt createDecoder).ret
      = ((max (fmt.min_num_decode_surfaces + 4) st.num_decode_surfaces : Nat) : Int) := by
  simp only [sequence_callback] at hok ⊢
  cases hcd : createDecoder (sequence_callback_prepare st fmt).2 <;>
    simp [hcd, sequence_callback_prepare_decoder, sequence_callback_prepare_num] at hok ⊢

/-- C3: a session built with requested minimum DPB size n stores
n clamped to [8, 32]; and on every sequence-callback invocation the DPB
size handed to cuvidCreateDecoder is max(parser minimum + 4, stored
requested minimum), which is also the value returned to the parser
whenever the decoder was created. -/
theorem c3_dpb_sizing (codec : VideoCodec) (req delay : Nat)
    (parserCreate : Except Nat Nat) (s : NvDecSession)
    (hnew : NvDecSession.new codec req delay parserCreate = .ok s) :
    s.callback_state.num_decode_surfaces = min (max req 8) 32
    ∧ ∀ (st : CallbackState) (fmt : CuVideoFormat)
        (createDecoder : CuvidDecodeCreateInfo → Except Nat Nat),
        (sequence_callback st fmt createDecoder).create_info.num_decode_surfaces
            = max (fmt.min_num_decode_surfaces + 4) st.num_decode_surfaces
        ∧ (sequence_callback st fmt createDecoder).state.num_decode_surfaces
            = st.num_decode_surfaces
        ∧ ((sequence_callback st fmt createDecoder).state.decoder.isSome = true →
            (sequence_callback st fmt createDecoder).ret
              = ((max (fmt.min_num_decode_surfaces + 4)
                    st.num_decode_surfaces : Nat) : Int)) := by
  refine ⟨?_, fun st fmt createDecoder =>
    ⟨(sequence_callback_dpb st fmt createDecoder).1,
     (sequence_callback_dpb st fmt createDecoder).2,
     sequence_callback_ret st fmt createDecoder⟩⟩
  cases codec <;> cases parserCreate <;>
    simp [NvDecSession.new, CudaVideoCodec.from_common] at hnew <;>
    simp [← hnew]

/-- C3 witness: a concrete session requested with 20 surfaces stores 20,
and a sequence header with parser minimum 9 yields DPB size
max(9 + 4, 20) = 20 both in the create-info and in the parser return. -/
theorem c3_witness :
    sessionDemo.callback_state.num_decode_surfaces = min (max 20 8) 32
    ∧ (sequence_callback sessionDemo.callback_state fmtDemo cdDemo).create_info.num_decode_surfaces
        = max (fmtDemo.min_num_decode_surfaces + 4)
            sessionDemo.callback_state.num_decode_surfaces
    ∧ (sequence_callback sessionDemo.callback_state fmtDemo cdDemo).ret
        = ((max (fmtDemo.min_num_decode_surfaces + 4)
              sessionDemo.callback_state.num_decode_surfaces : Nat) : Int) := by
  have h := c3_dpb_sizing .h264 20 4 (.ok 1) sessionDemo rfl
  exact ⟨h.1, (h.2 sessionDemo.callback_state fmtDemo cdDemo).1,
    (h.2 sessionDemo.callback_state fmtDemo cdDemo).2.2 rfl⟩

/-- C7: for every frame on the CPU fallback path with row pitch p and
(NV12, hence even) height h, the host buffer receiving the combined
Y + interleaved-UV copy has exactly p * h * 3 / 2 bytes. -/
theorem c7_nv12_host_size (deviceMem : Nat → Nat) (width height pitch : Nat)
    (h2 : 2 ∣ height) :
    (cpu_nv12_copy_and_convert deviceMem width height pitch).nv12_host.length
      = pitch * height * 3 / 2 := by
  obtain ⟨k, rfl⟩ := h2
  simp only [cpu_nv12_copy_and_convert, List.length_map, List.length_range]
  rw [Nat.mul_div_cancel_left k two_pos]
  have h3 : pitch * (2 * k) * 3 = 2 * (pitch * (2 * k) + pitch * k) := by ring
  rw [h3, Nat.mul_div_cancel_left _ two_pos]

/-- C7 witness: with pitch 2048 and height 1080 the host buffer has
2048 * 1080 * 3 / 2 bytes. -/
theorem c7_witness :
    (cpu_nv12_copy_and_convert (fun _ => 0) 1920 1080 2048).nv12_host.length
      = 2048 * 1080 * 3 / 2 :=
  c7_nv12_host_size (fun _ => 0) 1920 1080 2048 ⟨540, rfl⟩

/-- C9: when the metadata probe fails for any reason (unrecognized or
unreadable container, missing file, no video stream), open_file still
returns Ok, reaches Paused, and installs the default file info:
1920x1080, 30 fps, 10.0 seconds, H264. -/
theorem c9_probe_failure_defaults (e : EngineOrchestrator) (path file_name : String)
    (detect : Except String ContainerFormat)
    (openDemux : ContainerFormat → Except String ContainerInfo) (err : String)
    (hprobe : probe_file_info detect openDemux path file_name = .error err) :
    (e.open_file path file_name (probe_file_info detect openDemux path file_name)).2
        = .ok ()
    ∧ (e.open_file path file_name
        (probe_file_info detect openDemux path file_name)).1.state = .paused
    ∧ (e.open_file path file_name
        (probe_file_info detect openDemux path file_name)).1.file_info
        = some
          { path := path
            file_name := file_name
            resolution := Resolution.HD
            fps := Rational.FPS_30
            duration_secs := 10
            codec := VideoCodec.h264 } := by
  rw [hprobe]
  simp [EngineOrchestrator.open_file, EngineOrchestrator.stop_pipeline]

/-- C9 witness: probing an MP4 whose demuxer fails to open produces the
probe error, and opening with that probe outcome yields the defaults. -/
theorem c9_witness :
    (EngineOrchestrator.new.open_file "a.mp4" "a.mp4"
      (probe_file_info (.ok .mp4) (fun _ => .error "missing") "a.mp4" "a.mp4")).1.file_info
      = some
        { path := "a.mp4"
          file_name := "a.mp4"
          resolution := Resolution.HD
          fps := Rational.FPS_30
          duration_secs := 10
          codec := VideoCodec.h264 } :=
  (c9_probe_failure_defaults EngineOrchestrator.new "a.mp4" "a.mp4"
    (.ok .mp4) (fun _ => .error "missing") "Failed to open MP4: missing" rfl).2.2

/-- C1 counterexample: opening a file tagged with a codec the hardware
decoder rejects leaves the engine in Paused at the end of the open call
(its label is "Paused", not "Error"), while the worker reports the
software fallback instead of any fatal transition. -/
theorem c1_counterexample :
    (EngineOrchestrator.new.open_file "clip.webm" "clip.webm" probeVp9Demo).1.state
        = EngineState.paused
    ∧ (EngineOrchestrator.new.open_file "clip.webm" "clip.webm"
        probeVp9Demo).1.state.label = "Paused"
    ∧ (decode_thread_negotiate
        (.error "NvDecoder creation failed: unsupported codec") (.ok ())).1
        = [{ gpu_name := "None (software)", nvdec_active := false }] :=
  ⟨rfl, rfl, rfl⟩

/-- C1 (amended): open_file always returns Ok and leaves the engine in
Paused, for every probe outcome; a fatal decoder-setup failure in the
worker is reported as the one-shot software GpuInfoMsg (name
"None (software)", hw_accel false) followed by a fallback loop, and
receiving that report leaves the engine Paused — the Error state is
never entered on this path. -/
theorem c1_open_never_errors (e : EngineOrchestrator) (path file_name : String)
    (probe : Except String FileInfo) (err : String)
    (demuxOpen : Except String Unit) :
    (e.open_file path file_name probe).2 = .ok ()
    ∧ (e.open_file path file_name probe).1.state = .paused
    ∧ (decode_thread_negotiate (.error err) demuxOpen).1
        = [{ gpu_name := "None (software)", nvdec_active := false }]
    ∧ (∀ msg : GpuInfoMsg,
        ((e.open_file path file_name probe).1.apply_gpu_info msg).state
          = EngineState.paused) := by
  cases probe <;> cases demuxOpen <;>
    simp [EngineOrchestrator.open_file, EngineOrchestrator.stop_pipeline,
      decode_thread_negotiate, EngineOrchestrator.apply_gpu_info]

end MasterSelects
